import Mathlib

set_option linter.unusedVariables false

/-!
Shallow embedding of `src/tm_extractor.py` (hotosm/TM-Extractor): the
asynchronous project-processing pipeline of class `ProjectProcessor`.

Modelling conventions:
* Network I/O is modelled by response oracles `Nat → _Response`, indexed by the
  ordinal number of the request being made on that path.
* Sleeps and waits are not performed but counted in the outcome structures
  (`rateWaits`, `backoffs`, `sleepCount`), so claims about waiting behaviour
  become claims about those counters.  A rate-limit wait always lasts
  `rate_limit_wait` seconds and a poll sleep always lasts `task_poll_interval`
  seconds in the source, so counting them loses no information; exponential
  backoff sleeps have varying durations, so their durations are recorded.
* JSON payload values are modelled as `String`s; JSON objects are structures
  whose optional fields use `none` for an absent key; Python dicts keyed by
  strings are insertion-ordered association lists, as in CPython.
* Python `set(...)` iteration (unspecified order) is modelled by `List.dedup`.
-/

/-- ProjectProcessor.MAPPING_TYPES: the ordered key/value pairs of the
class-level dict (src/tm_extractor.py:112-117). -/
def MAPPING_TYPES : List (String × String) :=
  [("ROADS", "Roads"), ("BUILDINGS", "Buildings"),
   ("WATERWAYS", "Waterways"), ("LAND_USE", "Landuse")]

/-- A single mapping-type token as found in a project's `mapping_types` JSON
list: a Python `int`, a Python `str`, or a value of any other type. -/
inductive MappingToken where
  | int (n : Int)
  | str (s : String)
  | other
deriving DecidableEq, Repr

/-- Python `str.upper()`, modelled per character (exact for the ASCII keys of
MAPPING_TYPES). -/
def pyUpper (s : String) : String := String.mk (s.data.map Char.toUpper)

/-- ProjectProcessor.get_mapping_list (src/tm_extractor.py:152-161).
For an `int`: decrement (`input_value -= 1`), bounds-check against
`len(self.MAPPING_TYPES)` and index into `list(self.MAPPING_TYPES.values())`
(the checked index makes the lookup return `some`); for a `str`:
`self.MAPPING_TYPES.get(input_value.upper())`; any other type: `None`. -/
def get_mapping_list : MappingToken → Option String
  | .int n =>
      let input_value := n - 1
      if 0 ≤ input_value ∧ input_value < (MAPPING_TYPES.length : Int) then
        (MAPPING_TYPES.map Prod.snd)[input_value.toNat]?
      else none
  | .str s => MAPPING_TYPES.lookup (pyUpper s)
  | .other => none

/-- The configuration template / derived request document as the code uses it:
a `dataset` section with `dataset_prefix` and `dataset_title`, a `categories`
list whose elements are JSON objects (association lists from category name to
an opaque sub-configuration rendered as a `String`, with `""` standing for a
Python-falsy sub-configuration), a `geometry` slot (absent in the template,
set by the builder), and arbitrary further template content that the builder
copies through untouched. -/
structure TemplateDoc where
  dataset_prefix : String
  dataset_title : String
  categories : List (List (String × String))
  geometry : Option String
  otherFields : List (String × String)
deriving DecidableEq, Repr

/-- The inner helper `extract_values` of generate_filtered_config
(src/tm_extractor.py:171-174): the value of `key` in the first element of
`categories_list` that contains `key`, else `None`. -/
def extract_values (categories_list : List (List (String × String))) (key : String) :
    Option String :=
  (categories_list.find? (fun category => (category.lookup key).isSome)).bind
    (fun category => category.lookup key)

/-- Python truthiness of an optional sub-configuration value (`None` and falsy
values are false). -/
def pyTruthy : Option String → Bool
  | some v => v != ""
  | none => false

/-- ProjectProcessor.generate_filtered_config (src/tm_extractor.py:163-185).
`config_temp = copy.deepcopy(self.config)` is modelled by value semantics: the
function returns the (unchanged) `self.config` state alongside the derived
document, so mutation of `config_temp` is invisible to the template.
`set(mapping_types)` is modelled by `List.dedup`; the dict comprehension over
it plus `[{key: value} for key, value in ... if value]` become a `map`
followed by a `filterMap`. -/
def generate_filtered_config (config : TemplateDoc) (project_id : String)
    (mapping_types : List String) (geometry : String) : TemplateDoc × TemplateDoc :=
  let config_temp := config
  let config_temp := { config_temp with
    dataset_prefix := "hotosm_project_" ++ project_id,
    dataset_title := "Tasking Manger Project " ++ project_id }
  let categories_list := TemplateDoc.categories config_temp
  let extracted_values := mapping_types.dedup.map
    (fun key => (key, extract_values categories_list key))
  let modified_categories := extracted_values.filterMap
    (fun kv => match kv.2 with
      | some value => if value != "" then some [(kv.1, value)] else none
      | none => none)
  let config_temp :=
    { config_temp with categories := modified_categories, geometry := some geometry }
  (config, config_temp)

/-- The per-key category entry produced by generate_filtered_config: the first
matching sub-configuration wrapped as a singleton object, dropped when absent
or Python-falsy. -/
def catEntry (categories_list : List (List (String × String))) (key : String) :
    Option (List (String × String)) :=
  match extract_values categories_list key with
  | some value => if value != "" then some [(key, value)] else none
  | none => none

/-- Number of entries of a categories list that mention `key`. -/
def countKey (key : String) (cats : List (List (String × String))) : Nat :=
  cats.countP (fun category => decide (key ∈ category.map Prod.fst))

/-- One POST attempt's observable outcome at the Raw Data API snapshot
endpoint: a 2xx response whose JSON body may or may not contain `task_id`
(`ok`), a non-2xx status surfacing as `aiohttp.ClientResponseError`
(`httpError`), or any other exception — timeout, connection error, bad JSON
(`otherError`). -/
inductive PostResponse where
  | ok (task_id : Option String)
  | httpError (status : Nat)
  | otherError
deriving DecidableEq, Repr

/-- Instrumented result of retry_post_request: the returned value, the number
of rate-limit waits performed via handle_rate_limit (each lasting
`rate_limit_wait` seconds), the durations `backoff_base ** attempt` of the
exponential-backoff sleeps performed, and the number of POSTs issued. -/
structure PostOutcome where
  result : Option String
  rateWaits : Nat
  backoffs : List Nat
  attempts : Nat
deriving DecidableEq, Repr

/-- The body of the `for attempt in range(max_retries + 1)` loop of
ProjectProcessor.retry_post_request (src/tm_extractor.py:224-257), recursing on
the list of remaining attempt numbers.  `[]` is the fall-off-the-end of the
loop (unreachable from `retry_post_request`), where Python returns `None`
having made no request.  A 2xx body without `task_id` returns `None` at once;
a 429/502 error with retries left waits once (rate limit) and retries; any
other `ClientResponseError` retries without sleeping unless the attempt budget
is spent; any other exception sleeps `backoff_base ** attempt` and retries. -/
def retryPostLoop (responses : Nat → PostResponse) (max_retries backoff_base : Nat) :
    List Nat → PostOutcome
  | [] => ⟨none, 0, [], 0⟩
  | attempt :: rest =>
      match responses attempt with
      | .ok (some task_id) => ⟨some task_id, 0, [], 1⟩
      | .ok none => ⟨none, 0, [], 1⟩
      | .httpError s =>
          if (s = 429 ∨ s = 502) ∧ attempt < max_retries then
            let o := retryPostLoop responses max_retries backoff_base rest
            ⟨o.result, o.rateWaits + 1, o.backoffs, o.attempts + 1⟩
          else if attempt = max_retries then ⟨none, 0, [], 1⟩
          else
            let o := retryPostLoop responses max_retries backoff_base rest
            ⟨o.result, o.rateWaits, o.backoffs, o.attempts + 1⟩
      | .otherError =>
          if attempt < max_retries then
            let o := retryPostLoop responses max_retries backoff_base rest
            ⟨o.result, o.rateWaits, backoff_base ^ attempt :: o.backoffs, o.attempts + 1⟩
          else ⟨none, 0, [], 1⟩

/-- ProjectProcessor.retry_post_request with its `max_retries=3` default made
an explicit parameter. -/
def retry_post_request (responses : Nat → PostResponse) (max_retries backoff_base : Nat) :
    PostOutcome :=
  retryPostLoop responses max_retries backoff_base (List.range (max_retries + 1))

/-- A POST response that the source treats as rate limiting (status 429 or 502). -/
def isRateLimited : PostResponse → Bool
  | .httpError s => s == 429 || s == 502
  | _ => false

/-- The GeoJSON feature dict built for one project: `properties.project_id`
(kept as the string it is formatted into), `properties.mapping_types`, and
`geometry`. -/
structure Feature where
  project_id : String
  mapping_types : List MappingToken
  geometry : String
deriving DecidableEq, Repr

/-- ProjectProcessor.process_project (src/tm_extractor.py:187-222): normalize
the mapping types, skip (returning `None`) when the raw list is Python-falsy
or no type is supported, otherwise build the filtered config and POST it.
`self.max_retries` is in scope (`selfMaxRetries`) but the call
`self.retry_post_request(request_config)` passes no `max_retries` argument, so
the literal default 3 is used.  The instrumented `PostOutcome` of the
submission is returned (`none` = skipped). -/
def process_project (config : TemplateDoc) (selfMaxRetries backoff_base : Nat)
    (project : Feature) (responses : Nat → PostResponse) : Option PostOutcome :=
  let mapping_types_raw := project.mapping_types
  if mapping_types_raw.isEmpty then none
  else
    let mapping_types := mapping_types_raw.filterMap get_mapping_list
    if 0 < mapping_types.length then
      let _request_config :=
        generate_filtered_config config project.project_id mapping_types project.geometry
      some (retry_post_request responses 3 backoff_base)
    else none

/-- One parsed JSON body returned by retry_get_request for a status poll
(absent fields are `none`).  retry_get_request itself never raises: on
exhausted retries it returns a dict with status "ERROR" and a message, so the
status tracker always sees some dict. -/
structure PollResponse where
  status : Option String
  result : Option String
  message : Option String
deriving DecidableEq, Repr

/-- The statuses that terminate the inner polling loop of track_tasks_status
(src/tm_extractor.py:329). -/
def isLoopTerminal (st : Option String) : Bool :=
  st == some "SUCCESS" || st == some "ERROR" || st == some "FAILURE"

/-- The `while True:` polling loop of track_tasks_status
(src/tm_extractor.py:319-339) for one task: `polls k` is the k-th GET of this
task's status URL, and `fuel` bounds how many sleep-then-poll iterations are
modelled (the source loop is unbounded; `none` means the loop is still running
after `fuel` iterations).  On a status in SUCCESS/ERROR/FAILURE it records
`response.get("result", "No result available")` together with the number of
iterations performed (each iteration is one `task_poll_interval` sleep
followed by one poll). -/
def statusLoop (polls : Nat → PollResponse) : Nat → Nat → Option (Option String × Nat)
  | _, 0 => none
  | k, fuel + 1 =>
      let response := polls k
      if isLoopTerminal response.status then
        some (some (response.result.getD "No result available"), 1)
      else
        match statusLoop polls (k + 1) fuel with
        | none => none
        | some (entry, n) => some (entry, n + 1)

/-- Result-report entry, poll count and sleep count for one tracked task. -/
structure TrackOutcome where
  entry : Option String
  pollCount : Nat
  sleepCount : Nat
deriving DecidableEq, Repr

/-- The per-task body of track_tasks_status (src/tm_extractor.py:300-348):
poll once; on SUCCESS record `response.get("result")`; on PENDING/STARTED
enter the sleep-and-poll loop; on anything else record "FAILURE: " plus the
server's message or "Unknown error".  `none` = the unbounded inner loop ran
past `fuel`. -/
def trackOne (polls : Nat → PollResponse) (fuel : Nat) : Option TrackOutcome :=
  let response := polls 0
  if response.status = some "SUCCESS" then some ⟨response.result, 1, 0⟩
  else if response.status = some "PENDING" ∨ response.status = some "STARTED" then
    match statusLoop polls 1 fuel with
    | none => none
    | some (entry, n) => some ⟨entry, 1 + n, n⟩
  else some ⟨some ("FAILURE: " ++ (response.message.getD "Unknown error")), 1, 0⟩

/-- Python dict assignment `results[task_id] = v` on an insertion-ordered
association list. -/
def dictInsert (k : String) (v : Option String) :
    List (String × Option String) → List (String × Option String)
  | [] => [(k, v)]
  | (k2, v2) :: rest => if k2 = k then (k, v) :: rest else (k2, v2) :: dictInsert k v rest

/-- The `for task_id in task_ids:` loop of track_tasks_status, accumulating the
`results` dict; `none` when some task's polling loop runs past `fuel`. -/
def trackAllGo (fuel : Nat) :
    List (String × (Nat → PollResponse)) → List (String × Option String) →
    Option (List (String × Option String))
  | [], results => some results
  | (task_id, polls) :: rest, results =>
      match trackOne polls fuel with
      | none => none
      | some out => trackAllGo fuel rest (dictInsert task_id out.entry results)

/-- ProjectProcessor.track_tasks_status (src/tm_extractor.py:290-356): the
`results` mapping that gets dumped to result.json.  Each submitted task id is
paired with its own poll-response oracle.  (For an empty task list the source
returns early; the results mapping is empty either way.) -/
def track_tasks_status (tasks : List (String × (Nat → PollResponse))) (fuel : Nat) :
    Option (List (String × Option String)) :=
  trackAllGo fuel tasks []

/-- One GET of the Tasking Manager project-detail endpoint: a 2xx JSON body
with optional `mappingTypes` / `areaOfInterest` fields, a non-2xx status
surfacing as `aiohttp.ClientResponseError`, or any other exception. -/
inductive TMResponse where
  | ok (mappingTypes : Option (List MappingToken)) (areaOfInterest : Option String)
  | httpError (status : Nat)
  | otherError
deriving DecidableEq, Repr

/-- Instrumented result of get_project_details: the feature (`none` on
failure), the number of GETs issued, and the exponential-backoff sleep
durations performed. -/
structure GetOutcome where
  feature : Option Feature
  attempts : Nat
  backoffs : List Nat
deriving DecidableEq, Repr

/-- The `for retry in range(self.max_retries):` loop of
ProjectProcessor.get_project_details (src/tm_extractor.py:358-400): a 2xx body
with both required fields returns the feature; a body with a missing field
hits `continue` (skipping the sleep); a 404 hits `break` (no sleep, no further
attempts, returning `None`); any other failure falls through to
`await asyncio.sleep(self.backoff_base**retry)` and the next attempt. -/
def getProjectLoop (project_id : String) (responses : Nat → TMResponse)
    (backoff_base : Nat) : List Nat → GetOutcome
  | [] => ⟨none, 0, []⟩
  | retry :: rest =>
      match responses retry with
      | .ok mt geo =>
          match mt, geo with
          | some m, some g => ⟨some ⟨project_id, m, g⟩, 1, []⟩
          | _, _ =>
              let o := getProjectLoop project_id responses backoff_base rest
              ⟨o.feature, o.attempts + 1, o.backoffs⟩
      | .httpError s =>
          if s = 404 then ⟨none, 1, []⟩
          else
            let o := getProjectLoop project_id responses backoff_base rest
            ⟨o.feature, o.attempts + 1, backoff_base ^ retry :: o.backoffs⟩
      | .otherError =>
          let o := getProjectLoop project_id responses backoff_base rest
          ⟨o.feature, o.attempts + 1, backoff_base ^ retry :: o.backoffs⟩

/-- ProjectProcessor.get_project_details (src/tm_extractor.py:358-400). -/
def get_project_details (project_id : String) (responses : Nat → TMResponse)
    (max_retries backoff_base : Nat) : GetOutcome :=
  getProjectLoop project_id responses backoff_base (List.range max_retries)

/-- A response at which the get_project_details loop keeps going: a body
missing a required field, a non-404 HTTP error, or another exception. -/
def retryableFail : TMResponse → Bool
  | .ok (some _) (some _) => false
  | .ok _ _ => true
  | .httpError s => s != 404
  | .otherError => true

/-- The project-detail collection loop of ProjectProcessor.init_call
(src/tm_extractor.py:445-448): appends only the projects whose details
resolved; a failed project is skipped and the batch continues. -/
def collectDetails (max_retries backoff_base : Nat) :
    List (String × (Nat → TMResponse)) → List Feature
  | [] => []
  | (project_id, responses) :: rest =>
      match (get_project_details project_id responses max_retries backoff_base).feature with
      | some f => f :: collectDetails max_retries backoff_base rest
      | none => collectDetails max_retries backoff_base rest

/-! Concrete oracles and inputs used by witnesses and counterexamples. -/

/-- Poll oracle: PENDING on the first poll, then an unrecognized status forever. -/
def revokedAfterPending : Nat → PollResponse :=
  fun k => if k = 0 then ⟨some "PENDING", none, none⟩ else ⟨some "REVOKED", none, none⟩

/-- Poll oracle: an unrecognized status, with a server message, on every poll. -/
def revokedFirstPoll : Nat → PollResponse := fun _ => ⟨some "REVOKED", none, some "boom"⟩

/-- POST oracle: two consecutive 429 responses, then a success carrying task id "T". -/
def twoRateLimitsThenOk : Nat → PostResponse :=
  fun i => if i < 2 then PostResponse.httpError 429 else PostResponse.ok (some "T")

/-- POST oracle: one 502 response, then a success carrying task id "W2". -/
def oneRateLimitThenOk : Nat → PostResponse :=
  fun i => if i = 0 then PostResponse.httpError 502 else PostResponse.ok (some "W2")

/-- POST oracle: every response is 2xx with a body missing `task_id`. -/
def okNoneResp : Nat → PostResponse := fun _ => PostResponse.ok none

/-- POST oracle: every response is a success carrying task id "T10". -/
def okResp : Nat → PostResponse := fun _ => PostResponse.ok (some "T10")

/-- TM oracle: every response is a 404. -/
def resp404First : Nat → TMResponse := fun _ => TMResponse.httpError 404

/-- A small concrete configuration template. -/
def tmplEx : TemplateDoc :=
  ⟨"pfx", "title",
   [[("Roads", "rcfg"), ("Buildings", "bcfg")], [("Waterways", "wcfg")]],
   none, [("other", "x")]⟩

/-- A concrete project feature requesting a name token and an ordinal token. -/
def projEx : Feature := ⟨"42", [MappingToken.str "roads", MappingToken.int 2], "geomEx"⟩

/-- Poll oracle: PENDING, PENDING, then SUCCESS with payload "payload". -/
def pollsPPS : Nat → PollResponse :=
  fun k =>
    if k = 0 then ⟨some "PENDING", none, none⟩
    else if k = 1 then ⟨some "PENDING", some "ignored", none⟩
    else ⟨some "SUCCESS", some "payload", none⟩

/-- Poll oracle: immediate SUCCESS with payload "ra". -/
def wPollsA : Nat → PollResponse := fun _ => ⟨some "SUCCESS", some "ra", none⟩

/-- Poll oracle: an unknown status with message "mb" on the first poll. -/
def wPollsB : Nat → PollResponse := fun _ => ⟨some "WEIRD", none, some "mb"⟩

/-- Poll oracle: STARTED, then FAILURE with no result payload. -/
def wPollsC : Nat → PollResponse :=
  fun k => if k = 0 then ⟨some "STARTED", none, none⟩ else ⟨some "FAILURE", none, none⟩

/-- A mixed batch of three submitted tasks. -/
def wTasks : List (String × (Nat → PollResponse)) := [("a", wPollsA), ("b", wPollsB), ("c", wPollsC)]

/-- The report produced for `wTasks`. -/
def wReport : List (String × Option String) :=
  [("a", some "ra"), ("b", some "FAILURE: mb"), ("c", some "No result available")]

/-! Theorems. -/

/-- C3: get_mapping_list succeeds on an integer ordinal `n` exactly when `n - 1`
indexes the 4-element canonical list (ordinal 0 invalid, ordinal 1 ↦ Roads);
a string whose uppercasing equals a canonical key returns the exact canonical
form; every other input — unrecognized string, out-of-range ordinal, wrong
type — returns `none` (the model is a total function, so no error is raised). -/
theorem mapping_normalizer_contract :
    (∀ n : Int, (get_mapping_list (MappingToken.int n)).isSome = true ↔ (0 ≤ n - 1 ∧ n - 1 < 4))
    ∧ get_mapping_list (MappingToken.int 1) = some "Roads"
    ∧ (∀ s k v, (k, v) ∈ MAPPING_TYPES → pyUpper s = k →
        get_mapping_list (MappingToken.str s) = some v)
    ∧ (∀ s : String, (∀ kv ∈ MAPPING_TYPES, pyUpper s ≠ kv.1) →
        get_mapping_list (MappingToken.str s) = none)
    ∧ (∀ n : Int, ¬(0 ≤ n - 1 ∧ n - 1 < 4) → get_mapping_list (MappingToken.int n) = none)
    ∧ get_mapping_list MappingToken.other = none := by
  have hlen : ((MAPPING_TYPES.length : Nat) : Int) = 4 := by decide
  refine ⟨?_, by decide, ?_, ?_, ?_, rfl⟩
  · intro n
    by_cases h : 0 ≤ n - 1 ∧ n - 1 < 4
    · have hin : 0 ≤ n - 1 ∧ n - 1 < (MAPPING_TYPES.length : Int) := by rw [hlen]; exact h
      have hlt : (n - 1).toNat < (MAPPING_TYPES.map Prod.snd).length := by
        have : (n - 1).toNat < 4 := by omega
        exact this
      simp only [get_mapping_list, if_pos hin, List.getElem?_eq_getElem hlt, Option.isSome_some]
      exact iff_of_true trivial h
    · have hout : ¬(0 ≤ n - 1 ∧ n - 1 < (MAPPING_TYPES.length : Int)) := by rw [hlen]; exact h
      simp only [get_mapping_list, if_neg hout, Option.isSome_none]
      exact iff_of_false (by simp) h
  · intro s k v hmem hup
    simp only [MAPPING_TYPES, List.mem_cons, List.not_mem_nil, or_false,
      Prod.mk.injEq] at hmem
    rcases hmem with ⟨rfl, rfl⟩ | ⟨rfl, rfl⟩ | ⟨rfl, rfl⟩ | ⟨rfl, rfl⟩ <;>
      · simp only [get_mapping_list, hup]
        decide
  · intro s h
    have b1 : (pyUpper s == "ROADS") = false :=
      beq_eq_false_iff_ne.mpr (h ("ROADS", "Roads") (by decide))
    have b2 : (pyUpper s == "BUILDINGS") = false :=
      beq_eq_false_iff_ne.mpr (h ("BUILDINGS", "Buildings") (by decide))
    have b3 : (pyUpper s == "WATERWAYS") = false :=
      beq_eq_false_iff_ne.mpr (h ("WATERWAYS", "Waterways") (by decide))
    have b4 : (pyUpper s == "LAND_USE") = false :=
      beq_eq_false_iff_ne.mpr (h ("LAND_USE", "Landuse") (by decide))
    simp [get_mapping_list, MAPPING_TYPES, List.lookup, b1, b2, b3, b4]
  · intro n h
    have hout : ¬(0 ≤ n - 1 ∧ n - 1 < (MAPPING_TYPES.length : Int)) := by rw [hlen]; exact h
    simp only [get_mapping_list, if_neg hout]

/-- C3 witness: the theorem at a concrete input. -/
theorem mapping_normalizer_contract_instance :
    (("ROADS", "Roads") ∈ MAPPING_TYPES) ∧ pyUpper "roads" = "ROADS"
    ∧ get_mapping_list (MappingToken.str "roads") = some "Roads" :=
  ⟨by decide, by decide,
   mapping_normalizer_contract.2.2.1 "roads" "ROADS" "Roads" (by decide) (by decide)⟩

/-- Left cancellation of string concatenation. -/
theorem str_append_cancel_left (a b c : String) (h : a ++ b = a ++ c) : b = c := by
  have hd := congrArg String.data h
  rw [String.data_append, String.data_append] at hd
  exact String.ext (List.append_cancel_left hd)

/-- C4: generate_filtered_config never mutates the shared template — after each
of two sequential builds the stored template equals the original — and each
derived document's dataset section embeds exactly that call's own project id,
so different project ids give different dataset designators (no state leaks). -/
theorem filtered_config_preserves_template :
    ∀ (tmpl : TemplateDoc) (id1 id2 : String) (mts1 mts2 : List String) (g1 g2 : String),
      (generate_filtered_config tmpl id1 mts1 g1).1 = tmpl ∧
      (generate_filtered_config (generate_filtered_config tmpl id1 mts1 g1).1 id2 mts2 g2).1 =
        tmpl ∧
      TemplateDoc.dataset_prefix (generate_filtered_config tmpl id1 mts1 g1).2 =
        "hotosm_project_" ++ id1 ∧
      TemplateDoc.dataset_prefix
          (generate_filtered_config (generate_filtered_config tmpl id1 mts1 g1).1 id2 mts2 g2).2 =
        "hotosm_project_" ++ id2 ∧
      (id1 ≠ id2 →
        TemplateDoc.dataset_prefix (generate_filtered_config tmpl id1 mts1 g1).2 ≠
          TemplateDoc.dataset_prefix
            (generate_filtered_config (generate_filtered_config tmpl id1 mts1 g1).1
              id2 mts2 g2).2) := by
  intro tmpl id1 id2 mts1 mts2 g1 g2
  refine ⟨rfl, rfl, rfl, rfl, ?_⟩
  intro hne heq
  exact hne (str_append_cancel_left "hotosm_project_" id1 id2 heq)

/-- C4 witness: the theorem at a concrete template and two distinct project ids. -/
theorem filtered_config_preserves_template_instance :
    ("1" : String) ≠ "2" ∧
      TemplateDoc.dataset_prefix (generate_filtered_config tmplEx "1" ["Roads"] "g1").2 ≠
        TemplateDoc.dataset_prefix
          (generate_filtered_config (generate_filtered_config tmplEx "1" ["Roads"] "g1").1
            "2" ["Roads"] "g2").2 :=
  ⟨by decide,
   (filtered_config_preserves_template tmplEx "1" "2" ["Roads"] ["Roads"] "g1" "g2").2.2.2.2
     (by decide)⟩

/-- The derived document's categories list, as a filterMap of `catEntry` over
the deduplicated request. -/
theorem generate_filtered_config_categories (tmpl : TemplateDoc) (pid geo : String)
    (mts : List String) :
    TemplateDoc.categories (generate_filtered_config tmpl pid mts geo).2 =
      mts.dedup.filterMap (catEntry ( TemplateDoc.categories tmpl)) := by
  simp only [generate_filtered_config]
  rw [List.filterMap_map]
  rfl

/-- An entry produced by `catEntry cats a` is a singleton object keyed by `a`. -/
theorem catEntry_shape (cats : List (List (String × String))) (a : String)
    (m : List (String × String)) (h : catEntry cats a = some m) :
    ∃ v, m = [(a, v)] := by
  unfold catEntry at h
  cases he : extract_values cats a with
  | none => rw [he] at h; cases h
  | some v =>
      rw [he] at h
      have h2 : (if (v != "") = true then some [(a, v)] else none) = some m := h
      by_cases hv : (v != "") = true
      · rw [if_pos hv] at h2
        exact ⟨v, (Option.some.inj h2).symm⟩
      · rw [if_neg hv] at h2
        cases h2

/-- `catEntry` is `some` exactly when the extracted value is Python-truthy. -/
theorem catEntry_isSome_iff (cats : List (List (String × String))) (a : String) :
    (catEntry cats a).isSome = pyTruthy (extract_values cats a) := by
  unfold catEntry pyTruthy
  cases he : extract_values cats a with
  | none => rfl
  | some v =>
      show (if (v != "") = true then some [(a, v)] else none).isSome = (v != "")
      by_cases hv : (v != "") = true
      · rw [if_pos hv, hv]; rfl
      · rw [if_neg hv]
        simp only [Bool.not_eq_true] at hv
        rw [hv]; rfl

/-- Keys absent from the request never appear in the output categories. -/
theorem countKey_filterMap_of_not_mem (cats : List (List (String × String))) (k : String) :
    ∀ l : List String, k ∉ l → countKey k (l.filterMap (catEntry cats)) = 0 := by
  intro l
  induction l with
  | nil => intro _; rfl
  | cons a t ih =>
      intro hk
      have hka : ¬(k = a) := fun h => hk (h ▸ List.mem_cons_self a t)
      have hkt : k ∉ t := fun h => hk (List.mem_cons_of_mem a h)
      cases hc : catEntry cats a with
      | none => rw [List.filterMap_cons_none hc]; exact ih hkt
      | some m =>
          obtain ⟨v, rfl⟩ := catEntry_shape cats a m hc
          rw [List.filterMap_cons_some hc]
          unfold countKey
          rw [List.countP_cons_of_neg]
          · exact ih hkt
          · simp [hka]

/-- A requested key appears exactly once in the output categories when its
template sub-configuration is truthy, never otherwise. -/
theorem countKey_filterMap_of_mem (cats : List (List (String × String))) (k : String) :
    ∀ l : List String, l.Nodup → k ∈ l →
      countKey k (l.filterMap (catEntry cats)) =
        if pyTruthy (extract_values cats k) then 1 else 0 := by
  intro l
  induction l with
  | nil => intro _ hk; cases hk
  | cons a t ih =>
      intro hn hk
      have hna : a ∉ t := (List.nodup_cons.mp hn).1
      have hnt : t.Nodup := (List.nodup_cons.mp hn).2
      by_cases hka : k = a
      · subst hka
        have ht0 : countKey k (t.filterMap (catEntry cats)) = 0 :=
          countKey_filterMap_of_not_mem cats k t hna
        cases hc : catEntry cats k with
        | none =>
            rw [List.filterMap_cons_none hc, ht0]
            have := catEntry_isSome_iff cats k
            rw [hc] at this
            rw [← this]
            rfl
        | some m =>
            obtain ⟨v, rfl⟩ := catEntry_shape cats k m hc
            rw [List.filterMap_cons_some hc]
            unfold countKey
            rw [List.countP_cons_of_pos]
            · have := catEntry_isSome_iff cats k
              rw [hc] at this
              rw [← this]
              simpa [countKey] using ht0
            · simp
      · have hkt : k ∈ t := (List.mem_cons.mp hk).resolve_left hka
        cases hc : catEntry cats a with
        | none => rw [List.filterMap_cons_none hc]; exact ih hnt hkt
        | some m =>
            obtain ⟨v, rfl⟩ := catEntry_shape cats a m hc
            rw [List.filterMap_cons_some hc]
            unfold countKey
            rw [List.countP_cons_of_neg]
            · exact ih hnt hkt
            · simp [hka]

/-- C9: category filtering is deduplicating.  Every requested category name
appears exactly once in the derived config's categories when its template
sub-configuration exists and is truthy (and zero times otherwise), no matter
how often it is requested; and appending a duplicate of an already-requested
name leaves every per-key entry count of the output unchanged. -/
theorem filtered_config_categories_dedup :
    (∀ (tmpl : TemplateDoc) (pid geo k : String) (mts : List String),
        k ∈ mts →
        countKey k ( TemplateDoc.categories (generate_filtered_config tmpl pid mts geo).2) =
          if pyTruthy (extract_values ( TemplateDoc.categories tmpl) k) then 1 else 0)
    ∧ (∀ (tmpl : TemplateDoc) (pid geo k k2 : String) (mts : List String),
        k ∈ mts →
        countKey k2
            ( TemplateDoc.categories (generate_filtered_config tmpl pid (mts ++ [k]) geo).2) =
          countKey k2 ( TemplateDoc.categories (generate_filtered_config tmpl pid mts geo).2)) := by
  constructor
  · intro tmpl pid geo k mts hk
    rw [generate_filtered_config_categories]
    exact countKey_filterMap_of_mem _ k mts.dedup mts.nodup_dedup (List.mem_dedup.mpr hk)
  · intro tmpl pid geo k k2 mts hk
    rw [generate_filtered_config_categories, generate_filtered_config_categories]
    have hperm : (mts ++ [k]).dedup.Perm mts.dedup := by
      rw [List.perm_ext_iff_of_nodup (List.nodup_dedup _) (List.nodup_dedup _)]
      intro a
      simp only [List.mem_dedup, List.mem_append, List.mem_singleton]
      constructor
      · rintro (h | rfl)
        · exact h
        · exact hk
      · exact Or.inl
    unfold countKey
    exact (hperm.filterMap _).countP_eq _

/-- C9 witness: requesting "Roads" twice yields exactly one Roads entry. -/
theorem filtered_config_categories_dedup_instance :
    ("Roads" ∈ (["Roads", "Roads"] : List String)) ∧
      countKey "Roads"
          ( TemplateDoc.categories
            (generate_filtered_config tmplEx "9" ["Roads", "Roads"] "g").2) =
        if pyTruthy (extract_values ( TemplateDoc.categories tmplEx) "Roads") then 1 else 0 :=
  ⟨by decide,
   filtered_config_categories_dedup.1 tmplEx "9" "g" "Roads" ["Roads", "Roads"] (by decide)⟩

/-- C2 counterexample: with two consecutive 429 responses followed by a
success, retry_post_request performs TWO rate-limit waits before returning the
task id — not exactly one as the claim states. -/
theorem post_rate_limit_two_waits_for_two_429s :
    retry_post_request twoRateLimitsThenOk 3 2 = ⟨some "T", 2, [], 3⟩ ∧
      ( PostOutcome.rateWaits (retry_post_request twoRateLimitsThenOk 3 2)) ≠ 1 := by
  constructor
  · decide
  · decide

/-- Running start: if the loop reaches attempt `a` with `N` rate-limit
responses ahead, an in-budget success after them, and enough attempts left, it
performs exactly `N` rate-limit waits (and nothing else) and succeeds. -/
theorem retryPostLoop_rate_run (responses : Nat → PostResponse) (maxr b : Nat) (tid : String) :
    ∀ (N a n : Nat), N < n → a + N ≤ maxr →
      (∀ i, a ≤ i → i < a + N → isRateLimited (responses i) = true) →
      responses (a + N) = PostResponse.ok (some tid) →
      retryPostLoop responses maxr b (List.range' a n) = ⟨some tid, N, [], N + 1⟩ := by
  intro N
  induction N with
  | zero =>
      intro a n hn hle hrl hok
      obtain ⟨m, rfl⟩ : ∃ m, n = m + 1 := ⟨n - 1, by omega⟩
      rw [List.range'_succ]
      rw [show a + 0 = a from rfl] at hok
      simp only [retryPostLoop, hok]
  | succ N ih =>
      intro a n hn hle hrl hok
      obtain ⟨m, rfl⟩ : ∃ m, n = m + 1 := ⟨n - 1, by omega⟩
      have hra : isRateLimited (responses a) = true := hrl a (le_refl a) (by omega)
      cases hre : responses a with
      | ok t => rw [hre] at hra; simp [isRateLimited] at hra
      | otherError => rw [hre] at hra; simp [isRateLimited] at hra
      | httpError s =>
          rw [hre] at hra
          have hs : s = 429 ∨ s = 502 := by
            simpa only [isRateLimited, Bool.or_eq_true, beq_iff_eq] using hra
          have halt : a < maxr := by omega
          have hrec :
              retryPostLoop responses maxr b (List.range' (a + 1) m) =
                ⟨some tid, N, [], N + 1⟩ := by
            refine ih (a + 1) m (by omega) (by omega) ?_ ?_
            · intro i h1 h2
              exact hrl i (by omega) (by omega)
            · rw [show a + 1 + N = a + (N + 1) from by omega]
              exact hok
          rw [List.range'_succ]
          simp only [retryPostLoop, hre, if_pos (And.intro hs halt), hrec]

/-- Any run whose responses never carry a task id ends with `None`. -/
theorem retryPostLoop_all_fail (responses : Nat → PostResponse) (maxr b : Nat) :
    ∀ l : List Nat, (∀ i ∈ l, ∀ tid, responses i ≠ PostResponse.ok (some tid)) →
      ( PostOutcome.result (retryPostLoop responses maxr b l)) = none := by
  intro l
  induction l with
  | nil => intro _; rfl
  | cons a t ih =>
      intro h
      have ht : ∀ i ∈ t, ∀ tid, responses i ≠ PostResponse.ok (some tid) :=
        fun i hi => h i (List.mem_cons_of_mem a hi)
      cases hre : responses a with
      | ok ot =>
          cases ot with
          | some tid => exact absurd hre (h a (List.mem_cons_self a t) tid)
          | none => simp only [retryPostLoop, hre]
      | httpError s =>
          by_cases h1 : (s = 429 ∨ s = 502) ∧ a < maxr
          · simp only [retryPostLoop, hre, if_pos h1]
            exact ih ht
          · by_cases h2 : a = maxr
            · simp only [retryPostLoop, hre, if_neg h1, if_pos h2]
            · simp only [retryPostLoop, hre, if_neg h1, if_neg h2]
              exact ih ht
      | otherError =>
          by_cases h1 : a < maxr
          · simp only [retryPostLoop, hre, if_pos h1]
            exact ih ht
          · simp only [retryPostLoop, hre, if_neg h1]

/-- C2 amended: `N` consecutive rate-limit responses (429/502) followed by a
success, with `N ≤ max_retries`, make retry_post_request perform one
rate-limit wait per rate-limit response — `N` waits in total, no backoff
sleeps — and then return the success payload's task id on the `N+1`-st POST;
and when no response up to attempt `max_retries` carries a task id, it returns
an absence value (the model is total, so nothing is raised past the boundary). -/
theorem post_rate_limit_wait_per_response_and_bounded_retries :
    (∀ (responses : Nat → PostResponse) (maxr b N : Nat) (tid : String),
        N ≤ maxr →
        (∀ i, i < N → isRateLimited (responses i) = true) →
        responses N = PostResponse.ok (some tid) →
        retry_post_request responses maxr b = ⟨some tid, N, [], N + 1⟩)
    ∧ (∀ (responses : Nat → PostResponse) (maxr b : Nat),
        (∀ i, i ≤ maxr → ∀ tid, responses i ≠ PostResponse.ok (some tid)) →
        ( PostOutcome.result (retry_post_request responses maxr b)) = none) := by
  constructor
  · intro responses maxr b N tid hle hrl hok
    unfold retry_post_request
    rw [List.range_eq_range']
    refine retryPostLoop_rate_run responses maxr b tid N 0 (maxr + 1) (by omega) (by omega) ?_ ?_
    · intro i h1 h2
      exact hrl i (by omega)
    · rw [Nat.zero_add]
      exact hok
  · intro responses maxr b h
    unfold retry_post_request
    refine retryPostLoop_all_fail responses maxr b _ ?_
    intro i hi tid
    have hlt : i < maxr + 1 := List.mem_range.mp hi
    exact h i (by omega) tid

/-- C2 witness: the amended theorem at one 502 then a success. -/
theorem post_rate_limit_amended_instance :
    (1 : Nat) ≤ 3 ∧ oneRateLimitThenOk 1 = PostResponse.ok (some "W2") ∧
      retry_post_request oneRateLimitThenOk 3 2 = ⟨some "W2", 1, [], 2⟩ :=
  ⟨by decide, by decide,
   post_rate_limit_wait_per_response_and_bounded_retries.1 oneRateLimitThenOk 3 2 1 "W2"
     (by decide)
     (by
       intro i hi
       have : i = 0 := by omega
       subst this
       decide)
     (by decide)⟩

/-- C7: a 2xx POST response whose body lacks `task_id` makes
retry_post_request return `None` immediately: one POST, no retries, no
rate-limit wait, no backoff sleep. -/
theorem post_missing_task_id_no_retry :
    ∀ (responses : Nat → PostResponse) (maxr b : Nat),
      responses 0 = PostResponse.ok none →
      retry_post_request responses maxr b = ⟨none, 0, [], 1⟩ := by
  intro responses maxr b h
  unfold retry_post_request
  rw [List.range_eq_range', List.range'_succ]
  simp only [retryPostLoop, h]

/-- C7 witness: the theorem at a concrete oracle. -/
theorem post_missing_task_id_no_retry_instance :
    okNoneResp 0 = PostResponse.ok none ∧
      retry_post_request okNoneResp 5 2 = ⟨none, 0, [], 1⟩ :=
  ⟨rfl, post_missing_task_id_no_retry okNoneResp 5 2 rfl⟩

/-- The POST loop issues at most one request per scheduled attempt number. -/
theorem retryPostLoop_attempts_le (responses : Nat → PostResponse) (maxr b : Nat) :
    ∀ l : List Nat, ( PostOutcome.attempts (retryPostLoop responses maxr b l)) ≤ l.length := by
  intro l
  induction l with
  | nil => exact Nat.le_refl 0
  | cons a t ih =>
      cases hre : responses a with
      | ok ot =>
          cases ot with
          | some tid => simp only [retryPostLoop, hre, List.length_cons]; omega
          | none => simp only [retryPostLoop, hre, List.length_cons]; omega
      | httpError s =>
          by_cases h1 : (s = 429 ∨ s = 502) ∧ a < maxr
          · simp only [retryPostLoop, hre, if_pos h1, List.length_cons]; omega
          · by_cases h2 : a = maxr
            · simp only [retryPostLoop, hre, if_neg h1, if_pos h2, List.length_cons]; omega
            · simp only [retryPostLoop, hre, if_neg h1, if_neg h2, List.length_cons]; omega
      | otherError =>
          by_cases h1 : a < maxr
          · simp only [retryPostLoop, hre, if_pos h1, List.length_cons]; omega
          · simp only [retryPostLoop, hre, if_neg h1, List.length_cons]; omega

/-- C10: process_project never passes `self.max_retries` to the POST path —
its result is independent of that setting — and any submission it makes uses
the fixed default of 3 retries, hence at most 4 POST attempts in total. -/
theorem process_project_post_retries_fixed_at_three :
    ∀ (config : TemplateDoc) (m1 m2 b : Nat) (project : Feature)
      (responses : Nat → PostResponse),
      process_project config m1 b project responses =
          process_project config m2 b project responses
      ∧ (∀ o, process_project config m1 b project responses = some o →
          ( PostOutcome.attempts o) ≤ 4) := by
  intro config m1 m2 b project responses
  constructor
  · rfl
  · intro o h
    unfold process_project at h
    by_cases h1 : (project.mapping_types).isEmpty
    · rw [if_pos h1] at h
      cases h
    · rw [if_neg h1] at h
      by_cases h2 : 0 < (project.mapping_types.filterMap get_mapping_list).length
      · rw [if_pos h2] at h
        have ho : o = retry_post_request responses 3 b := (Option.some.inj h).symm
        subst ho
        have hb := retryPostLoop_attempts_le responses 3 b (List.range (3 + 1))
        simpa [retry_post_request] using hb
      · rw [if_neg h2] at h
        cases h

/-- C10 witness: the theorem at a concrete project and oracle. -/
theorem process_project_post_retries_fixed_at_three_instance :
    process_project tmplEx 9 2 projEx okResp = some ⟨some "T10", 0, [], 1⟩ ∧
      ( PostOutcome.attempts (⟨some "T10", 0, [], 1⟩ : PostOutcome)) ≤ 4 :=
  ⟨by decide,
   (process_project_post_retries_fixed_at_three tmplEx 9 9 2 projEx okResp).2
     ⟨some "T10", 0, [], 1⟩ (by decide)⟩

/-- Running start for the project-detail loop: if the loop reaches attempt `a`
with `k` retryable failures ahead and then a 404, it stops with no feature
after exactly `k + 1` requests. -/
theorem getProjectLoop_break_404 (project_id : String) (responses : Nat → TMResponse)
    (b : Nat) :
    ∀ (k a n : Nat), k < n →
      (∀ i, i < k → retryableFail (responses (a + i)) = true) →
      responses (a + k) = TMResponse.httpError 404 →
      (getProjectLoop project_id responses b (List.range' a n)).feature = none ∧
        (getProjectLoop project_id responses b (List.range' a n)).attempts = k + 1 := by
  intro k
  induction k with
  | zero =>
      intro a n hn hret h404
      obtain ⟨m, rfl⟩ : ∃ m, n = m + 1 := ⟨n - 1, by omega⟩
      rw [show a + 0 = a from rfl] at h404
      rw [List.range'_succ]
      simp only [getProjectLoop, h404, if_pos rfl]
      exact ⟨rfl, rfl⟩
  | succ k ih =>
      intro a n hn hret h404
      obtain ⟨m, rfl⟩ : ∃ m, n = m + 1 := ⟨n - 1, by omega⟩
      have h0 : retryableFail (responses a) = true := by
        have := hret 0 (by omega)
        rwa [show a + 0 = a from rfl] at this
      have hshift : ∀ i, i < k → retryableFail (responses (a + 1 + i)) = true := by
        intro i hi
        have := hret (i + 1) (by omega)
        rwa [show a + (i + 1) = a + 1 + i from by omega] at this
      have h404s : responses (a + 1 + k) = TMResponse.httpError 404 := by
        rwa [show a + (k + 1) = a + 1 + k from by omega] at h404
      have hrec := ih (a + 1) m (by omega) hshift h404s
      rw [List.range'_succ]
      cases hre : responses a with
      | ok mt geo =>
          rw [hre] at h0
          cases mt with
          | some m0 =>
              cases geo with
              | some g0 => simp [retryableFail] at h0
              | none =>
                  simp only [getProjectLoop, hre]
                  exact ⟨hrec.1, by rw [hrec.2]⟩
          | none =>
              cases geo with
              | some g0 =>
                  simp only [getProjectLoop, hre]
                  exact ⟨hrec.1, by rw [hrec.2]⟩
              | none =>
                  simp only [getProjectLoop, hre]
                  exact ⟨hrec.1, by rw [hrec.2]⟩
      | httpError s =>
          rw [hre] at h0
          have hs : ¬(s = 404) := by
            simpa only [retryableFail, bne_iff_ne, ne_eq] using h0
          simp only [getProjectLoop, hre, if_neg hs]
          exact ⟨hrec.1, by rw [hrec.2]⟩
      | otherError =>
          simp only [getProjectLoop, hre]
          exact ⟨hrec.1, by rw [hrec.2]⟩

/-- C8: a 404 from the project-detail endpoint is terminal — once the loop
reaches it (after any run of retryable failures), get_project_details makes no
further request and resolves to an absence value — and the batch's detail
collection simply continues without a project whose resolution failed. -/
theorem project_details_404_terminal :
    (∀ (project_id : String) (responses : Nat → TMResponse) (maxr b k : Nat),
        k < maxr →
        (∀ i, i < k → retryableFail (responses i) = true) →
        responses k = TMResponse.httpError 404 →
        (get_project_details project_id responses maxr b).feature = none ∧
          (get_project_details project_id responses maxr b).attempts = k + 1)
    ∧ (∀ (maxr b : Nat) (project_id : String) (responses : Nat → TMResponse)
          (rest : List (String × (Nat → TMResponse))),
        (get_project_details project_id responses maxr b).feature = none →
        collectDetails maxr b ((project_id, responses) :: rest) =
          collectDetails maxr b rest) := by
  constructor
  · intro project_id responses maxr b k hk hret h404
    unfold get_project_details
    rw [List.range_eq_range']
    refine getProjectLoop_break_404 project_id responses b k 0 maxr hk ?_ ?_
    · intro i hi
      rw [Nat.zero_add]
      exact hret i hi
    · rw [Nat.zero_add]
      exact h404
  · intro maxr b project_id responses rest h
    simp only [collectDetails, h]

/-- C8 witness: the theorem at a 404 on the very first attempt. -/
theorem project_details_404_terminal_instance :
    (0 : Nat) < 3 ∧ resp404First 0 = TMResponse.httpError 404 ∧
      ((get_project_details "7" resp404First 3 2).feature = none ∧
        (get_project_details "7" resp404First 3 2).attempts = 0 + 1) :=
  ⟨by decide, rfl,
   project_details_404_terminal.1 "7" resp404First 3 2 0 (by decide)
     (fun i hi => absurd hi (by omega)) rfl⟩

/-- One iteration of the polling loop at a terminal status: record the result
payload (or the placeholder) after this single sleep-and-poll iteration. -/
theorem statusLoop_term (polls : Nat → PollResponse) (k fuel : Nat)
    (h : isLoopTerminal (polls k).status = true) :
    statusLoop polls k (fuel + 1) =
      some (some ((polls k).result.getD "No result available"), 1) := by
  simp [statusLoop, h]

/-- One iteration of the polling loop at a non-terminal status: keep looping,
with one more sleep-and-poll iteration counted. -/
theorem statusLoop_cont (polls : Nat → PollResponse) (k fuel : Nat)
    (h : isLoopTerminal (polls k).status = false) :
    statusLoop polls k (fuel + 1) =
      Option.map (fun q => (q.1, q.2 + 1)) (statusLoop polls (k + 1) fuel) := by
  simp only [statusLoop, h, Bool.false_eq_true, if_false]
  cases hc : statusLoop polls (k + 1) fuel with
  | none => rfl
  | some q => cases q; rfl

/-- C5: a job that polls PENDING, PENDING, then SUCCESS is polled exactly 3
times with exactly two task_poll_interval sleeps (one before each re-poll),
and the final report maps it to its success payload. -/
theorem pending_pending_success_three_polls :
    ∀ (polls : Nat → PollResponse) (fuel : Nat) (task_id p : String),
      2 ≤ fuel →
      (polls 0).status = some "PENDING" →
      (polls 1).status = some "PENDING" →
      (polls 2).status = some "SUCCESS" →
      (polls 2).result = some p →
      trackOne polls fuel = some ⟨some p, 3, 2⟩ ∧
        track_tasks_status [(task_id, polls)] fuel = some [(task_id, some p)] := by
  intro polls fuel task_id p hf h0 h1 h2 hp
  obtain ⟨f, rfl⟩ : ∃ f, fuel = f + 2 := ⟨fuel - 2, by omega⟩
  have hterm : isLoopTerminal (polls 2).status = true := by rw [h2]; rfl
  have hnt : isLoopTerminal (polls 1).status = false := by rw [h1]; rfl
  have hloop2 : statusLoop polls 2 (f + 1) = some (some p, 1) := by
    rw [statusLoop_term polls 2 f hterm, hp]
    rfl
  have hloop1 : statusLoop polls 1 (f + 2) = some (some p, 2) := by
    rw [show f + 2 = (f + 1) + 1 from rfl, statusLoop_cont polls 1 (f + 1) hnt, hloop2]
    rfl
  have hT : trackOne polls (f + 2) = some ⟨some p, 3, 2⟩ := by
    simp only [trackOne]
    rw [h0, if_neg (by decide), if_pos (Or.inl rfl), hloop1]
  refine ⟨hT, ?_⟩
  unfold track_tasks_status
  simp only [trackAllGo, hT, dictInsert]

/-- C5 witness: the theorem at a concrete oracle and minimal fuel. -/
theorem pending_pending_success_three_polls_instance :
    (2 : Nat) ≤ 2 ∧ (pollsPPS 0).status = some "PENDING" ∧
      (pollsPPS 2).result = some "payload" ∧
      trackOne pollsPPS 2 = some ⟨some "payload", 3, 2⟩ :=
  ⟨by decide, rfl, rfl,
   (pending_pending_success_three_polls pollsPPS 2 "t1" "payload"
     (by decide) rfl rfl rfl rfl).1⟩

/-- Once the inner polling loop runs on `revokedAfterPending`, every status it
sees is the unrecognized "REVOKED", which never terminates it. -/
theorem statusLoop_revoked_none :
    ∀ (fuel k : Nat), 1 ≤ k → statusLoop revokedAfterPending k fuel = none := by
  intro fuel
  induction fuel with
  | zero => intro k _; rfl
  | succ f ih =>
      intro k hk
      have hs : isLoopTerminal (revokedAfterPending k).status = false := by
        unfold revokedAfterPending
        rw [if_neg (by omega)]
        rfl
      simp only [statusLoop, hs, Bool.false_eq_true, if_false, ih (k + 1) (by omega)]

/-- C6 counterexample: for a job that reports PENDING and then an unknown
status on every later poll, the tracker never records anything — no amount of
loop fuel makes trackOne produce an entry, i.e. the source loops unboundedly
instead of recording the job as failed. -/
theorem unknown_status_after_pending_loops_forever :
    ¬ ∃ (fuel : Nat) (out : TrackOutcome), trackOne revokedAfterPending fuel = some out := by
  rintro ⟨fuel, out, h⟩
  have h0 : (revokedAfterPending 0).status = some "PENDING" := rfl
  simp only [trackOne] at h
  rw [h0, if_neg (by decide), if_pos (Or.inl rfl),
    statusLoop_revoked_none fuel 1 (by omega)] at h
  simp at h

/-- C6 amended: an unknown status value seen on the FIRST poll is recorded as
a failure with the server's message (or "Unknown error") after exactly one
poll and no sleep; but an unknown status seen on a later poll, inside the
PENDING/STARTED wait loop, does not terminate that loop — only
SUCCESS/ERROR/FAILURE do — so polling simply continues past it. -/
theorem unknown_status_first_poll_fails_later_poll_continues :
    (∀ (polls : Nat → PollResponse) (fuel : Nat),
        (polls 0).status ≠ some "SUCCESS" →
        (polls 0).status ≠ some "PENDING" →
        (polls 0).status ≠ some "STARTED" →
        trackOne polls fuel =
          some ⟨some ("FAILURE: " ++ ((polls 0).message.getD "Unknown error")), 1, 0⟩)
    ∧ (∀ (polls : Nat → PollResponse) (k fuel : Nat),
        isLoopTerminal (polls k).status = false →
        statusLoop polls k (fuel + 1) =
          Option.map (fun q => (q.1, q.2 + 1)) (statusLoop polls (k + 1) fuel)) := by
  constructor
  · intro polls fuel h1 h2 h3
    simp only [trackOne]
    rw [if_neg h1, if_neg (not_or.mpr ⟨h2, h3⟩)]
  · intro polls k fuel h
    exact statusLoop_cont polls k fuel h

/-- C6 witness: the amended theorem's first-poll half at a concrete oracle. -/
theorem unknown_status_first_poll_fails_instance :
    (revokedFirstPoll 0).status ≠ some "SUCCESS" ∧
      trackOne revokedFirstPoll 0 =
        some ⟨some ("FAILURE: " ++ ((revokedFirstPoll 0).message.getD "Unknown error")), 1, 0⟩ :=
  ⟨by decide,
   unknown_status_first_poll_fails_later_poll_continues.1 revokedFirstPoll 0
     (by decide) (by decide) (by decide)⟩

/-- Keys of a dict after insertion: unchanged when the key was present, the
key appended otherwise. -/
theorem map_fst_dictInsert (k : String) (v : Option String) :
    ∀ l : List (String × Option String),
      (dictInsert k v l).map Prod.fst =
        if k ∈ l.map Prod.fst then l.map Prod.fst else l.map Prod.fst ++ [k] := by
  intro l
  induction l with
  | nil => simp [dictInsert]
  | cons hd t ih =>
      obtain ⟨k2, v2⟩ := hd
      by_cases hk : k2 = k
      · subst hk
        simp [dictInsert]
      · have hk2 : ¬(k = k2) := fun h => hk h.symm
        simp only [dictInsert, if_neg hk, List.map_cons, List.mem_cons, ih]
        by_cases hm : k ∈ t.map Prod.fst
        · simp [hm, hk2]
        · simp [hm, hk2]

/-- Dict insertion preserves key nodup-ness. -/
theorem nodup_keys_dictInsert (k : String) (v : Option String)
    (l : List (String × Option String)) (h : (l.map Prod.fst).Nodup) :
    ((dictInsert k v l).map Prod.fst).Nodup := by
  rw [map_fst_dictInsert]
  by_cases hm : k ∈ l.map Prod.fst
  · simpa [hm] using h
  · simp [hm, List.nodup_append, h]

/-- Membership in a dict's keys after insertion. -/
theorem mem_keys_dictInsert (x k : String) (v : Option String)
    (l : List (String × Option String)) :
    x ∈ (dictInsert k v l).map Prod.fst ↔ x = k ∨ x ∈ l.map Prod.fst := by
  rw [map_fst_dictInsert]
  by_cases hm : k ∈ l.map Prod.fst
  · rw [if_pos hm]
    constructor
    · exact Or.inr
    · rintro (rfl | h)
      · exact hm
      · exact h
  · rw [if_neg hm]
    simp [List.mem_append, or_comm]

/-- The tracking loop's report keys are exactly the accumulated keys plus the
remaining task ids, with no duplicates. -/
theorem trackAllGo_keys (fuel : Nat) :
    ∀ (tasks : List (String × (Nat → PollResponse))) (acc report : List (String × Option String)),
      trackAllGo fuel tasks acc = some report →
      (acc.map Prod.fst).Nodup →
      ((report.map Prod.fst).Nodup ∧
        ∀ id, id ∈ report.map Prod.fst ↔ id ∈ acc.map Prod.fst ∨ id ∈ tasks.map Prod.fst) := by
  intro tasks
  induction tasks with
  | nil =>
      intro acc report h hn
      simp only [trackAllGo] at h
      cases h
      exact ⟨hn, by simp⟩
  | cons hd t ih =>
      obtain ⟨task_id, polls⟩ := hd
      intro acc report h hn
      simp only [trackAllGo] at h
      cases ht : trackOne polls fuel with
      | none => rw [ht] at h; cases h
      | some out =>
          rw [ht] at h
          have hrec := ih (dictInsert task_id out.entry acc) report h
            (nodup_keys_dictInsert _ _ _ hn)
          refine ⟨hrec.1, fun id => ?_⟩
          rw [hrec.2 id, mem_keys_dictInsert]
          simp only [List.map_cons, List.mem_cons]
          tauto

/-- C1: whenever the status tracker terminates on a batch of submitted task
ids (of any length, with any mix of poll outcomes), the produced report
contains exactly one entry per submitted task id — its keys are duplicate-free
and coincide with the set of submitted ids, so no id is dropped or repeated. -/
theorem track_report_exactly_one_entry_per_job :
    ∀ (tasks : List (String × (Nat → PollResponse))) (fuel : Nat)
      (report : List (String × Option String)),
      track_tasks_status tasks fuel = some report →
      ((report.map Prod.fst).Nodup ∧
        ∀ id, id ∈ report.map Prod.fst ↔ id ∈ tasks.map Prod.fst) := by
  intro tasks fuel report h
  have hk := trackAllGo_keys fuel tasks [] report h (by simp)
  refine ⟨hk.1, fun id => ?_⟩
  rw [hk.2 id]
  simp

/-- C1 witness: the theorem at a concrete 3-job batch with mixed
SUCCESS / unknown-status / FAILURE outcomes. -/
theorem track_report_exactly_one_entry_per_job_instance :
    track_tasks_status wTasks 3 = some wReport ∧
      (wReport.map Prod.fst).Nodup ∧
      ("a" ∈ wReport.map Prod.fst ↔ "a" ∈ wTasks.map Prod.fst) :=
  ⟨by decide,
   (track_report_exactly_one_entry_per_job wTasks 3 wReport (by decide)).1,
   (track_report_exactly_one_entry_per_job wTasks 3 wReport (by decide)).2 "a"⟩
